import Mathlib

/-!
Shallow embedding of the backend in src/app.js: an Express application with
JWT-in-session authentication, user registration and login, and
ownership-scoped CRUD over text posts backed by a Mongo document store.

Each route handler becomes a pure Lean function from its inputs (request
body fields, session, secret, current time, store state) to a response
together with the updated session and store.  JavaScript body values are
modelled by `JsVal` so that the truthiness and typeof checks of the source
are kept faithfully.  A JWT is modelled as its payload plus its expiry
timestamp and the secret it was signed with, standing in for the HMAC
signature.
-/

namespace Backend

/-- A JavaScript value as it may appear in a parsed JSON request body field.
Absent fields destructure to `undefined`. -/
inductive JsVal where
  | undefined : JsVal
  | null : JsVal
  | str : String → JsVal
  | num : Int → JsVal
  | bool : Bool → JsVal
deriving DecidableEq, Repr

/-- JavaScript truthiness of a value: the test `!x` in the handlers is the
negation of this.  `undefined`, `null`, the empty string, `0` and `false`
are falsy. -/
def JsVal.truthy : JsVal → Bool
  | .undefined => false
  | .null => false
  | .str s => !(s == "")
  | .num n => !(n == 0)
  | .bool b => b

/-- The JavaScript test `typeof x === "string"`. -/
def JsVal.isStr : JsVal → Bool
  | .str _ => true
  | _ => false

/-- A stored user document (model `User`): username, email and plaintext
password, plus the document id assigned by the store. -/
structure UserRec where
  id : Nat
  username : String
  email : String
  password : String
deriving DecidableEq, Repr

/-- A stored post document (model `Post`): the owning user id and the text,
plus the document id assigned by the store. -/
structure PostRec where
  id : Nat
  userId : Nat
  text : JsVal
deriving DecidableEq, Repr

/-- The document store: the two collections, plus counters standing in for
the object ids Mongo assigns to newly inserted documents. -/
structure Store where
  users : List UserRec
  posts : List PostRec
  nextUserId : Nat
  nextPostId : Nat
deriving DecidableEq, Repr

/-- The decoded JWT payload that the guards attach to `req.user`. -/
structure Decoded where
  userId : Nat
  username : String
deriving DecidableEq, Repr

/-- A signed JWT: the payload, the expiry timestamp (seconds), and the
secret it was signed with (standing in for the HMAC signature). -/
structure Token where
  userId : Nat
  username : String
  exp : Nat
  sig : String
deriving DecidableEq, Repr

/-- Model of `jwt.sign(payload, secret)` with a one hour `expiresIn`,
called at time `now` (seconds since epoch). -/
def jwtSign (userId : Nat) (username : String) (secret : String) (now : Nat) : Token :=
  { userId := userId, username := username, exp := now + 3600, sig := secret }

/-- Model of `jwt.verify(token, secret)` at time `now`: returns the decoded
payload when the signature matches and the token has not expired, and fails
otherwise. -/
def jwtVerify (t : Token) (secret : String) (now : Nat) : Option Decoded :=
  if t.sig = secret ∧ now < t.exp then
    some { userId := t.userId, username := t.username }
  else
    none

/-- An HTTP response as produced by the handlers: a JSON error body with a
status code, a JSON success body carrying a post, the post listing, a
redirect, or a static page. -/
inductive Response where
  | json : Nat → String → Response
  | jsonPost : Nat → String → PostRec → Response
  | jsonPosts : List PostRec → Response
  | redirect : String → Response
  | page : String → Response
deriving DecidableEq, Repr

/-- The HTTP status code of a response (`res.json` defaults to 200 and
`res.redirect` to 302). -/
def Response.code : Response → Nat
  | .json c _ => c
  | .jsonPost c _ _ => c
  | .jsonPosts _ => 200
  | .redirect _ => 302
  | .page _ => 200

/-- The list of posts carried by a listing response. -/
def Response.postsOf : Response → List PostRec
  | .jsonPosts l => l
  | _ => []

/-- The `authenticateJWT` middleware: rejects with a 401 JSON body when the
session holds no token or verification fails; otherwise yields the decoded
identity for the downstream handler. -/
def authenticateJWT (sess : Option Token) (secret : String) (now : Nat) :
    Except Response Decoded :=
  match sess with
  | none => .error (.json 401 "Unauthorized")
  | some t =>
    match jwtVerify t secret now with
    | some d => .ok d
    | none => .error (.json 401 "Invalid token")

/-- The `requireAuth` middleware: redirects to the login page when the
session holds no token or verification fails; otherwise yields the decoded
identity for the downstream handler. -/
def requireAuth (sess : Option Token) (secret : String) (now : Nat) :
    Except Response Decoded :=
  match sess with
  | none => .error (.redirect "/login")
  | some t =>
    match jwtVerify t secret now with
    | some d => .ok d
    | none => .error (.redirect "/login")

/-- Body of the POST /post handler (after the guard): validates the text
field with `!text || typeof text !== "string"`, then inserts a new post
owned by the requester. -/
def createPost (user : Decoded) (text : JsVal) (s : Store) : Response × Store :=
  if !text.truthy || !text.isStr then
    (.json 400 "Please provide valid post content", s)
  else
    let p : PostRec := { id := s.nextPostId, userId := user.userId, text := text }
    (.jsonPost 201 "Post created successfully" p,
      { s with posts := s.posts ++ [p], nextPostId := s.nextPostId + 1 })

/-- Body of the GET /posts handler (after the guard): fetches the posts
whose userId is the requester, `Post.find(\x7b userId: req.user.userId \x7d)`. -/
def listPosts (user : Decoded) (s : Store) : Response × Store :=
  (.jsonPosts (s.posts.filter (fun p => p.userId == user.userId)), s)

/-- Model of applying the update document built from the request body,
`\x7b text \x7d`, to a matched post document on its String-typed text path:
mongoose strips an undefined value from the update document (the update
becomes a no-op and the document is returned unchanged), stores null, and
casts a number or boolean value to its string form before storing it. -/
def applyTextUpdate (text : JsVal) (p : PostRec) : PostRec :=
  match text with
  | .undefined => p
  | .null => { p with text := .null }
  | .str t => { p with text := .str t }
  | .num n => { p with text := .str (toString n) }
  | .bool b => { p with text := .str (if b then "true" else "false") }

/-- Model of `Post.findOneAndUpdate(filter, update, new)` on a collection:
applies the update document to the first document matching both the post id
and the owner id, returning the updated document, or fails when no document
matches. -/
def findOneAndUpdate (pid uid : Nat) (text : JsVal) :
    List PostRec → Option PostRec × List PostRec
  | [] => (none, [])
  | p :: ps =>
    if p.id = pid ∧ p.userId = uid then
      (some (applyTextUpdate text p), applyTextUpdate text p :: ps)
    else
      let r := findOneAndUpdate pid uid text ps
      (r.1, p :: r.2)

/-- Model of `Post.findOneAndDelete(filter)` on a collection: removes the
first document matching both the post id and the owner id, returning it, or
fails when no document matches. -/
def findOneAndDelete (pid uid : Nat) :
    List PostRec → Option PostRec × List PostRec
  | [] => (none, [])
  | p :: ps =>
    if p.id = pid ∧ p.userId = uid then
      (some p, ps)
    else
      let r := findOneAndDelete pid uid ps
      (r.1, p :: r.2)

/-- Body of the PUT /posts/:postId handler (after the guard): finds and
updates the post scoped by requester ownership; 404 when nothing matched. -/
def updatePost (user : Decoded) (postId : Nat) (text : JsVal) (s : Store) :
    Response × Store :=
  let r := findOneAndUpdate postId user.userId text s.posts
  match r.1 with
  | none => (.json 404 "Post not found", s)
  | some p => (.jsonPost 200 "Post updated successfully" p, { s with posts := r.2 })

/-- Body of the DELETE /posts/:postId handler (after the guard): finds and
deletes the post scoped by requester ownership; 404 when nothing matched. -/
def deletePost (user : Decoded) (postId : Nat) (s : Store) : Response × Store :=
  let r := findOneAndDelete postId user.userId s.posts
  match r.1 with
  | none => (.json 404 "Post not found", s)
  | some p => (.jsonPost 200 "Post deleted successfully" p, { s with posts := r.2 })

/-- The POST /register handler: conflict when a user with the same username
or email exists; otherwise stores the record verbatim, signs a token into
the session, and redirects. -/
def registerUser (username email password secret : String) (now : Nat)
    (sess : Option Token) (s : Store) : Response × Option Token × Store :=
  match s.users.find? (fun u => u.username == username || u.email == email) with
  | some _ => (.json 400 "User already exists", sess, s)
  | none =>
    let u : UserRec :=
      { id := s.nextUserId, username := username, email := email, password := password }
    let t := jwtSign u.id u.username secret now
    (.redirect ("/index?username=" ++ u.username), some t,
      { s with users := s.users ++ [u], nextUserId := s.nextUserId + 1 })

/-- The POST /login handler: looks a user up by exact username and
plaintext password; 401 when none matches; otherwise signs a token into the
session and redirects. -/
def loginUser (username password secret : String) (now : Nat)
    (sess : Option Token) (s : Store) : Response × Option Token × Store :=
  match s.users.find? (fun u => u.username == username && u.password == password) with
  | none => (.json 401 "Invalid credentials", sess, s)
  | some u =>
    let t := jwtSign u.id u.username secret now
    (.redirect ("/index?username=" ++ u.username), some t, s)

/-- The full POST /post route: the strict guard, then the create handler.
The session is returned unchanged: the route never writes it. -/
def postRoute (sess : Option Token) (secret : String) (now : Nat) (text : JsVal)
    (s : Store) : Response × Option Token × Store :=
  match authenticateJWT sess secret now with
  | .error r => (r, sess, s)
  | .ok d =>
    let r := createPost d text s
    (r.1, sess, r.2)

/-- The full GET /posts route: the strict guard, then the listing handler.
The session is returned unchanged: the route never writes it. -/
def postsRoute (sess : Option Token) (secret : String) (now : Nat) (s : Store) :
    Response × Option Token × Store :=
  match authenticateJWT sess secret now with
  | .error r => (r, sess, s)
  | .ok d =>
    let r := listPosts d s
    (r.1, sess, r.2)

/-- The full PUT /posts/:postId route: the strict guard, then the update
handler.  The session is returned unchanged: the route never writes it. -/
def putPostRoute (sess : Option Token) (secret : String) (now : Nat)
    (postId : Nat) (text : JsVal) (s : Store) : Response × Option Token × Store :=
  match authenticateJWT sess secret now with
  | .error r => (r, sess, s)
  | .ok d =>
    let r := updatePost d postId text s
    (r.1, sess, r.2)

/-- The full DELETE /posts/:postId route: the strict guard, then the delete
handler.  The session is returned unchanged: the route never writes it. -/
def deletePostRoute (sess : Option Token) (secret : String) (now : Nat)
    (postId : Nat) (s : Store) : Response × Option Token × Store :=
  match authenticateJWT sess secret now with
  | .error r => (r, sess, s)
  | .ok d =>
    let r := deletePost d postId s
    (r.1, sess, r.2)

/-- The GET /index route: the redirecting guard, then the page handler. -/
def indexRoute (sess : Option Token) (secret : String) (now : Nat) : Response :=
  match requireAuth sess secret now with
  | .error r => r
  | .ok d => .page d.username

/-! Helper lemmas about the ownership-scoped find-and-update and
find-and-delete operations. -/

/-- When no document matches both the post id and the owner id, the
find-and-update fails and leaves the collection unchanged. -/
theorem findOneAndUpdate_of_no_match (pid uid : Nat) (text : JsVal)
    (l : List PostRec) (h : ∀ p ∈ l, ¬(p.id = pid ∧ p.userId = uid)) :
    findOneAndUpdate pid uid text l = (none, l) := by
  induction l with
  | nil => rfl
  | cons p ps ih =>
    have hp := h p (List.mem_cons_self p ps)
    have hps : ∀ q ∈ ps, ¬(q.id = pid ∧ q.userId = uid) :=
      fun q hq => h q (List.mem_cons_of_mem p hq)
    simp only [findOneAndUpdate, if_neg hp, ih hps]

/-- When no document matches both the post id and the owner id, the
find-and-delete fails and leaves the collection unchanged. -/
theorem findOneAndDelete_of_no_match (pid uid : Nat)
    (l : List PostRec) (h : ∀ p ∈ l, ¬(p.id = pid ∧ p.userId = uid)) :
    findOneAndDelete pid uid l = (none, l) := by
  induction l with
  | nil => rfl
  | cons p ps ih =>
    have hp := h p (List.mem_cons_self p ps)
    have hps : ∀ q ∈ ps, ¬(q.id = pid ∧ q.userId = uid) :=
      fun q hq => h q (List.mem_cons_of_mem p hq)
    simp only [findOneAndDelete, if_neg hp, ih hps]

/-- When some document matches both the post id and the owner id, the
find-and-update returns a matching stored document with the update document
applied, and that resulting document is in the updated collection. -/
theorem findOneAndUpdate_of_match (pid uid : Nat) (text : JsVal)
    (l : List PostRec) (h : ∃ p ∈ l, p.id = pid ∧ p.userId = uid) :
    ∃ p ∈ l, p.id = pid ∧ p.userId = uid ∧
      (findOneAndUpdate pid uid text l).1 = some (applyTextUpdate text p) ∧
      applyTextUpdate text p ∈ (findOneAndUpdate pid uid text l).2 := by
  induction l with
  | nil => obtain ⟨p, hp, _⟩ := h; exact absurd hp (List.not_mem_nil p)
  | cons p ps ih =>
    by_cases hp : p.id = pid ∧ p.userId = uid
    · refine ⟨p, List.mem_cons_self p ps, hp.1, hp.2, ?_, ?_⟩ <;>
        simp [findOneAndUpdate, if_pos hp]
    · obtain ⟨q, hq, hq2⟩ := h
      rcases List.mem_cons.mp hq with rfl | hq'
      · exact absurd hq2 hp
      · obtain ⟨q, hqmem, hq1, hq2, hfst, hsnd⟩ := ih ⟨q, hq', hq2⟩
        refine ⟨q, List.mem_cons_of_mem p hqmem, hq1, hq2, ?_, ?_⟩ <;>
          simp [findOneAndUpdate, if_neg hp, hfst, hsnd]

/-- C1: an authenticated Update or Delete naming a post id whose stored
owner differs from the decoded requester id fails with 404, never succeeds,
and leaves the store unchanged; the response is the same literal 404 body
produced when no post with that id exists at all. -/
theorem update_delete_other_owner_not_found (d : Decoded) (postId : Nat)
    (text : JsVal) (s : Store)
    (h : ∀ p ∈ s.posts, p.id = postId → p.userId ≠ d.userId) :
    updatePost d postId text s = (.json 404 "Post not found", s) ∧
    deletePost d postId s = (.json 404 "Post not found", s) := by
  have h' : ∀ p ∈ s.posts, ¬(p.id = postId ∧ p.userId = d.userId) :=
    fun p hp hc => h p hp hc.1 hc.2
  constructor
  · simp [updatePost, findOneAndUpdate_of_no_match postId d.userId text s.posts h']
  · simp [deletePost, findOneAndDelete_of_no_match postId d.userId s.posts h']

theorem update_delete_other_owner_not_found_witness :
    (∀ p ∈ [PostRec.mk 5 2 (.str "y")], p.id = 5 → p.userId ≠ 1) ∧
    (updatePost ⟨1, "alice"⟩ 5 (.str "x") ⟨[], [⟨5, 2, .str "y"⟩], 0, 6⟩ =
        (.json 404 "Post not found", ⟨[], [⟨5, 2, .str "y"⟩], 0, 6⟩) ∧
      deletePost ⟨1, "alice"⟩ 5 ⟨[], [⟨5, 2, .str "y"⟩], 0, 6⟩ =
        (.json 404 "Post not found", ⟨[], [⟨5, 2, .str "y"⟩], 0, 6⟩)) :=
  ⟨by decide, update_delete_other_owner_not_found ⟨1, "alice"⟩ 5 (.str "x")
      ⟨[], [⟨5, 2, .str "y"⟩], 0, 6⟩ (by decide)⟩

/-- C2: an authenticated List request leaves the store unchanged and
returns exactly the stored posts whose owner id equals the decoded
requester id: a post is in the returned collection iff it is stored and
owned by the requester. -/
theorem list_posts_exactly_owned (d : Decoded) (s : Store) (p : PostRec) :
    (listPosts d s).2 = s ∧
    (p ∈ ((listPosts d s).1).postsOf ↔ p ∈ s.posts ∧ p.userId = d.userId) := by
  refine ⟨rfl, ?_⟩
  simp [listPosts, Response.postsOf, List.mem_filter]

/-- C3: when the session holds no token, or a token failing verification,
every strict-guarded post route responds 401 with a JSON error body and
leaves session and store untouched (the downstream handler never runs),
and the redirect-guarded page route responds with a redirect to /login. -/
theorem guards_reject_unauthenticated (sess : Option Token) (secret : String)
    (now : Nat) (text : JsVal) (postId : Nat) (s : Store)
    (h : sess = none ∨ ∃ t, sess = some t ∧ jwtVerify t secret now = none) :
    (∃ msg, postRoute sess secret now text s = (.json 401 msg, sess, s) ∧
       postsRoute sess secret now s = (.json 401 msg, sess, s) ∧
       putPostRoute sess secret now postId text s = (.json 401 msg, sess, s) ∧
       deletePostRoute sess secret now postId s = (.json 401 msg, sess, s)) ∧
    indexRoute sess secret now = .redirect "/login" := by
  rcases h with rfl | ⟨t, rfl, hv⟩
  · exact ⟨⟨"Unauthorized", rfl, rfl, rfl, rfl⟩, rfl⟩
  · refine ⟨⟨"Invalid token", ?_, ?_, ?_, ?_⟩, ?_⟩ <;>
      simp [postRoute, postsRoute, putPostRoute, deletePostRoute, indexRoute,
        authenticateJWT, requireAuth, hv]

theorem guards_reject_unauthenticated_witness :
    ((none : Option Token) = none ∨
      ∃ t, (none : Option Token) = some t ∧ jwtVerify t "k" 0 = none) ∧
    ((∃ msg, postRoute none "k" 0 (.str "hi") ⟨[], [], 0, 0⟩ =
          (.json 401 msg, none, ⟨[], [], 0, 0⟩) ∧
        postsRoute none "k" 0 ⟨[], [], 0, 0⟩ = (.json 401 msg, none, ⟨[], [], 0, 0⟩) ∧
        putPostRoute none "k" 0 7 (.str "hi") ⟨[], [], 0, 0⟩ =
          (.json 401 msg, none, ⟨[], [], 0, 0⟩) ∧
        deletePostRoute none "k" 0 7 ⟨[], [], 0, 0⟩ =
          (.json 401 msg, none, ⟨[], [], 0, 0⟩)) ∧
      indexRoute none "k" 0 = .redirect "/login") :=
  ⟨Or.inl rfl, guards_reject_unauthenticated none "k" 0 (.str "hi") 7
      ⟨[], [], 0, 0⟩ (Or.inl rfl)⟩

/-- C10: an authenticated Create whose body text is the empty string is
rejected with 400 and inserts nothing, although the empty string is a
string: the empty string is falsy, so the validation test rejects it. -/
theorem create_rejects_empty_string (d : Decoded) (s : Store) :
    (JsVal.str "").isStr = true ∧
    createPost d (.str "") s = (.json 400 "Please provide valid post content", s) :=
  ⟨rfl, rfl⟩

/-- C4: Register fails with 400 exactly when some stored user has the same
username or the same email, and then stores nothing and leaves the session
credential untouched; otherwise it appends the record verbatim (password
unhashed) and stores a freshly signed credential in the session. -/
theorem register_conflict_or_insert (username email password secret : String)
    (now : Nat) (sess : Option Token) (s : Store) :
    registerUser username email password secret now sess s =
      if ∃ u ∈ s.users, u.username = username ∨ u.email = email then
        (.json 400 "User already exists", sess, s)
      else
        (.redirect ("/index?username=" ++ username),
          some (jwtSign s.nextUserId username secret now),
          { s with users := s.users ++ [⟨s.nextUserId, username, email, password⟩],
                   nextUserId := s.nextUserId + 1 }) := by
  by_cases hc : ∃ u ∈ s.users, u.username = username ∨ u.email = email
  · rw [if_pos hc]
    have hsome :
        (s.users.find? (fun u => u.username == username || u.email == email)).isSome := by
      rw [List.find?_isSome]
      obtain ⟨u, hu, hor⟩ := hc
      exact ⟨u, hu, by simpa using hor⟩
    obtain ⟨v, hv⟩ := Option.isSome_iff_exists.mp hsome
    simp only [registerUser, hv]
  · rw [if_neg hc]
    have hnone :
        s.users.find? (fun u => u.username == username || u.email == email) = none := by
      rw [List.find?_eq_none]
      intro x hx hpx
      exact hc ⟨x, hx, by simpa using hpx⟩
    simp only [registerUser, hnone]

/-- C5: Login succeeds, storing a freshly signed credential in the session
and redirecting, exactly when some stored user matches both the username
and the plaintext password; otherwise it responds 401 and leaves the
session credential unchanged. -/
theorem login_iff_user_match (username password secret : String) (now : Nat)
    (sess : Option Token) (s : Store) :
    if ∃ u ∈ s.users, u.username = username ∧ u.password = password then
      ∃ u ∈ s.users, u.username = username ∧ u.password = password ∧
        loginUser username password secret now sess s =
          (.redirect ("/index?username=" ++ username),
            some (jwtSign u.id username secret now), s)
    else
      loginUser username password secret now sess s =
        (.json 401 "Invalid credentials", sess, s) := by
  by_cases hc : ∃ u ∈ s.users, u.username = username ∧ u.password = password
  · rw [if_pos hc]
    have hsome :
        (s.users.find? (fun u => u.username == username && u.password == password)).isSome := by
      rw [List.find?_isSome]
      obtain ⟨u, hu, h1, h2⟩ := hc
      exact ⟨u, hu, by simp [h1, h2]⟩
    obtain ⟨v, hv⟩ := Option.isSome_iff_exists.mp hsome
    have hvpred := List.find?_some hv
    simp only [Bool.and_eq_true, beq_iff_eq] at hvpred
    refine ⟨v, List.mem_of_find?_eq_some hv, hvpred.1, hvpred.2, ?_⟩
    simp only [loginUser, hv, hvpred.1]
  · rw [if_neg hc]
    have hnone :
        s.users.find? (fun u => u.username == username && u.password == password) = none := by
      rw [List.find?_eq_none]
      intro x hx hpx
      simp only [Bool.and_eq_true, beq_iff_eq] at hpx
      exact hc ⟨x, hx, hpx⟩
    simp only [loginUser, hnone]

/-- C6 counterexample: the empty string is present and is a string, yet
Create rejects it with 400 and inserts nothing, refuting the reading that
every present string body is inserted with 201. -/
theorem create_present_string_refuted :
    (JsVal.str "").isStr = true ∧ JsVal.str "" ≠ .undefined ∧
    createPost ⟨1, "alice"⟩ (.str "") ⟨[], [], 0, 0⟩ =
      (.json 400 "Please provide valid post content", ⟨[], [], 0, 0⟩) ∧
    (createPost ⟨1, "alice"⟩ (.str "") ⟨[], [], 0, 0⟩).1.code ≠ 201 :=
  ⟨rfl, by decide, rfl, by decide⟩

/-- C6 (amended): Create fails with 400 and inserts nothing when the text
is absent, not a string, or the empty string; when the text is a nonempty
string it inserts a post owned by the decoded requester carrying that text
and responds 201 with the new record. -/
theorem create_validates_text (d : Decoded) (text : JsVal) (s : Store) :
    if text.isStr = true ∧ text ≠ .str "" then
      createPost d text s =
        (.jsonPost 201 "Post created successfully" ⟨s.nextPostId, d.userId, text⟩,
          { s with posts := s.posts ++ [⟨s.nextPostId, d.userId, text⟩],
                   nextPostId := s.nextPostId + 1 })
    else
      createPost d text s = (.json 400 "Please provide valid post content", s) := by
  cases text with
  | str t =>
    by_cases ht : t = ""
    · subst ht
      rw [if_neg (by simp)]
      rfl
    · rw [if_pos ⟨rfl, by simp [ht]⟩]
      simp [createPost, JsVal.truthy, JsVal.isStr, ht]
  | undefined =>
    rw [if_neg (by simp [JsVal.isStr])]
    rfl
  | null =>
    rw [if_neg (by simp [JsVal.isStr])]
    rfl
  | num n =>
    rw [if_neg (by simp [JsVal.isStr])]
    simp [createPost, JsVal.truthy, JsVal.isStr]
  | bool b =>
    rw [if_neg (by simp [JsVal.isStr])]
    simp [createPost, JsVal.truthy, JsVal.isStr]

/-- C9 counterexample: with an absent body text, Update on an owned post
responds 200 but the update document is stripped to a no-op: the stored
text remains the old string rather than being overwritten with the absent
value, refuting the overwrite reading at this concrete input. -/
theorem update_overwrite_refuted :
    updatePost ⟨1, "alice"⟩ 5 .undefined ⟨[], [⟨5, 1, .str "y"⟩], 0, 6⟩ =
      (.jsonPost 200 "Post updated successfully" ⟨5, 1, .str "y"⟩,
        ⟨[], [⟨5, 1, .str "y"⟩], 0, 6⟩) ∧
    JsVal.str "y" ≠ .undefined :=
  ⟨rfl, by decide⟩

/-- C9 (amended): Update validates nothing and never responds 400: whenever
the requester owns a stored post with the named id, the request responds
200 for any body text; an absent text is stripped from the update document
so the stored text is left unchanged, null is stored, a string is stored as
given, and a number or boolean is cast to its string form before being
stored. -/
theorem update_text_semantics (d : Decoded) (postId : Nat) (text : JsVal)
    (s : Store) (h : ∃ p ∈ s.posts, p.id = postId ∧ p.userId = d.userId) :
    (∃ p ∈ s.posts, p.id = postId ∧ p.userId = d.userId ∧
      ∃ q, (updatePost d postId text s).1 =
          .jsonPost 200 "Post updated successfully" q ∧
        q ∈ (updatePost d postId text s).2.posts ∧
        q.id = p.id ∧ q.userId = p.userId ∧
        q.text = (match text with
          | .undefined => p.text
          | .null => .null
          | .str t => .str t
          | .num n => .str (toString n)
          | .bool b => .str (if b then "true" else "false"))) ∧
    ∀ (d2 : Decoded) (pid2 : Nat) (t2 : JsVal) (s2 : Store),
      ((updatePost d2 pid2 t2 s2).1).code ≠ 400 := by
  constructor
  · obtain ⟨p, hp, h1, h2, hfst, hsnd⟩ :=
      findOneAndUpdate_of_match postId d.userId text s.posts h
    refine ⟨p, hp, h1, h2, applyTextUpdate text p,
      by simp [updatePost, hfst], ?_, ?_, ?_, ?_⟩
    · simpa [updatePost, hfst] using hsnd
    · cases text <;> rfl
    · cases text <;> rfl
    · cases text <;> rfl
  · intro d2 pid2 t2 s2
    unfold updatePost
    cases hfind : (findOneAndUpdate pid2 d2.userId t2 s2.posts).1 with
    | none => simp [hfind, Response.code]
    | some p => simp [hfind, Response.code]

theorem update_text_semantics_witness :
    (∃ p ∈ (Store.mk [] [⟨5, 1, .str "y"⟩] 0 6).posts,
      p.id = 5 ∧ p.userId = (Decoded.mk 1 "alice").userId) ∧
    ((∃ p ∈ (Store.mk [] [⟨5, 1, .str "y"⟩] 0 6).posts,
        p.id = 5 ∧ p.userId = (Decoded.mk 1 "alice").userId ∧
        ∃ q, (updatePost ⟨1, "alice"⟩ 5 (.num 7) ⟨[], [⟨5, 1, .str "y"⟩], 0, 6⟩).1 =
            .jsonPost 200 "Post updated successfully" q ∧
          q ∈ (updatePost ⟨1, "alice"⟩ 5 (.num 7) ⟨[], [⟨5, 1, .str "y"⟩], 0, 6⟩).2.posts ∧
          q.id = p.id ∧ q.userId = p.userId ∧
          q.text = .str (toString (7 : Int))) ∧
      ∀ (d2 : Decoded) (pid2 : Nat) (t2 : JsVal) (s2 : Store),
        ((updatePost d2 pid2 t2 s2).1).code ≠ 400) :=
  ⟨⟨⟨5, 1, .str "y"⟩, by decide, by decide⟩,
    update_text_semantics ⟨1, "alice"⟩ 5 (.num 7) ⟨[], [⟨5, 1, .str "y"⟩], 0, 6⟩
      ⟨⟨5, 1, .str "y"⟩, by decide, by decide⟩⟩

/-- C7: when no stored user has the given username or email, registration
succeeds (redirect, fresh credential in the session), and a login with the
same username and password against the resulting store also succeeds. -/
theorem register_then_login (username email password secret : String)
    (now now2 : Nat) (sess sess2 : Option Token) (s : Store)
    (h : ∀ u ∈ s.users, u.username ≠ username ∧ u.email ≠ email) :
    ∃ t s2, registerUser username email password secret now sess s =
        (.redirect ("/index?username=" ++ username), some t, s2) ∧
      ∃ t2, loginUser username password secret now2 sess2 s2 =
        (.redirect ("/index?username=" ++ username), some t2, s2) := by
  have hreg : s.users.find? (fun u => u.username == username || u.email == email) = none := by
    rw [List.find?_eq_none]
    intro x hx hpx
    simp only [Bool.or_eq_true, beq_iff_eq] at hpx
    rcases hpx with h1 | h2
    · exact (h x hx).1 h1
    · exact (h x hx).2 h2
  refine ⟨jwtSign s.nextUserId username secret now,
    { s with users := s.users ++ [⟨s.nextUserId, username, email, password⟩],
             nextUserId := s.nextUserId + 1 }, ?_, ?_⟩
  · simp only [registerUser, hreg]
  · have hlog1 :
        s.users.find? (fun v => v.username == username && v.password == password) = none := by
      rw [List.find?_eq_none]
      intro x hx hpx
      simp only [Bool.and_eq_true, beq_iff_eq] at hpx
      exact (h x hx).1 hpx.1
    exact ⟨jwtSign s.nextUserId username secret now2, by simp [loginUser, hlog1]⟩

theorem register_then_login_witness :
    (∀ u ∈ ([] : List UserRec), u.username ≠ "alice" ∧ u.email ≠ "a@x.com") ∧
    (∃ t s2, registerUser "alice" "a@x.com" "pw" "k" 0 none ⟨[], [], 0, 0⟩ =
        (.redirect ("/index?username=" ++ "alice"), some t, s2) ∧
      ∃ t2, loginUser "alice" "pw" "k" 7 none s2 =
        (.redirect ("/index?username=" ++ "alice"), some t2, s2)) :=
  ⟨by decide,
    register_then_login "alice" "a@x.com" "pw" "k" 0 7 none none ⟨[], [], 0, 0⟩ (by decide)⟩

/-- C8: a signed credential expires exactly one hour after issuance; once
the current time has reached that expiry, verification fails, every
strict-guarded route rejects with 401 leaving the session credential
unchanged (never refreshed) and the store untouched, and the page route
redirects to login. -/
theorem token_one_hour_expiry (userId : Nat) (username secret : String)
    (t0 now : Nat) (text : JsVal) (postId : Nat) (s : Store)
    (h : t0 + 3600 ≤ now) :
    (jwtSign userId username secret t0).exp = t0 + 3600 ∧
    jwtVerify (jwtSign userId username secret t0) secret now = none ∧
    postRoute (some (jwtSign userId username secret t0)) secret now text s =
      (.json 401 "Invalid token", some (jwtSign userId username secret t0), s) ∧
    postsRoute (some (jwtSign userId username secret t0)) secret now s =
      (.json 401 "Invalid token", some (jwtSign userId username secret t0), s) ∧
    putPostRoute (some (jwtSign userId username secret t0)) secret now postId text s =
      (.json 401 "Invalid token", some (jwtSign userId username secret t0), s) ∧
    deletePostRoute (some (jwtSign userId username secret t0)) secret now postId s =
      (.json 401 "Invalid token", some (jwtSign userId username secret t0), s) ∧
    indexRoute (some (jwtSign userId username secret t0)) secret now =
      .redirect "/login" := by
  have hlt : ¬ now < t0 + 3600 := by omega
  have hv : jwtVerify (jwtSign userId username secret t0) secret now = none := by
    simp [jwtVerify, jwtSign, hlt]
  refine ⟨rfl, hv, ?_, ?_, ?_, ?_, ?_⟩ <;>
    simp [postRoute, postsRoute, putPostRoute, deletePostRoute, indexRoute,
      authenticateJWT, requireAuth, hv]

theorem token_one_hour_expiry_witness :
    0 + 3600 ≤ 4000 ∧
    ((jwtSign 1 "alice" "k" 0).exp = 0 + 3600 ∧
      jwtVerify (jwtSign 1 "alice" "k" 0) "k" 4000 = none ∧
      postRoute (some (jwtSign 1 "alice" "k" 0)) "k" 4000 (.str "hi") ⟨[], [], 0, 0⟩ =
        (.json 401 "Invalid token", some (jwtSign 1 "alice" "k" 0), ⟨[], [], 0, 0⟩) ∧
      postsRoute (some (jwtSign 1 "alice" "k" 0)) "k" 4000 ⟨[], [], 0, 0⟩ =
        (.json 401 "Invalid token", some (jwtSign 1 "alice" "k" 0), ⟨[], [], 0, 0⟩) ∧
      putPostRoute (some (jwtSign 1 "alice" "k" 0)) "k" 4000 7 (.str "hi") ⟨[], [], 0, 0⟩ =
        (.json 401 "Invalid token", some (jwtSign 1 "alice" "k" 0), ⟨[], [], 0, 0⟩) ∧
      deletePostRoute (some (jwtSign 1 "alice" "k" 0)) "k" 4000 7 ⟨[], [], 0, 0⟩ =
        (.json 401 "Invalid token", some (jwtSign 1 "alice" "k" 0), ⟨[], [], 0, 0⟩) ∧
      indexRoute (some (jwtSign 1 "alice" "k" 0)) "k" 4000 = .redirect "/login") :=
  ⟨by decide,
    token_one_hour_expiry 1 "alice" "k" 0 4000 (.str "hi") 7 ⟨[], [], 0, 0⟩ (by decide)⟩

end Backend
